import Mathlib

/-!
A shallow embedding of `lib/Basic/Statistic.cpp` (the Swift unified stats
reporter): counter domains, the frontend stats tracer with its delta-based
event log, the exit-status protocol, and the teardown sequence, together
with theorems checking the specified properties against this embedding.

Machine integers (`size_t` / `uint64_t`) are modelled as `Nat` with
arithmetic reduced modulo `2 ^ 64` at the points where the C++ code can
wrap.
-/

namespace SwiftStats

/-- Modulus of `size_t` / `uint64_t` arithmetic (64-bit build). -/
def W : Nat := 2 ^ 64

/-- Wrapping unsigned subtraction `a - b` on 64-bit values, as produced by
C++ unsigned arithmetic.  For `b < W` this is `(a + W - b) % W`. -/
def wrapSub (a b : Nat) : Nat := (a + (W - b % W)) % W

/-- `EXIT_SUCCESS` from `<cstdlib>`. -/
def EXIT_SUCCESS : Int := 0

/-- `EXIT_FAILURE` from `<cstdlib>`. -/
def EXIT_FAILURE : Int := 1

/-- Modelled from the spec: the statically known Frontend-domain counters.
The actual table lives in `swift/Basic/Statistics.def` (not under `src/`);
the spec describes it as "a declarative table of (domain, name) pairs
consumed by one generic iteration routine".  We model a representative
table containing the counters the source file itself refers to
(`NumProcessFailures`, `NumSourceLines`, `NumSourceLinesPerSecond`)
plus one further ordinary counter. -/
inductive FrontendCounter where
  | NumProcessFailures
  | NumSourceLines
  | NumSourceLinesPerSecond
  | NumLoadedModules
deriving DecidableEq, Repr, Fintype

/-- The iteration order of `FRONTEND_STATISTIC` expansions over
`Statistics.def` (one entry per statically known Frontend counter). -/
def frontendStatisticOrder : List FrontendCounter :=
  [.NumProcessFailures, .NumSourceLines, .NumSourceLinesPerSecond, .NumLoadedModules]

/-- Modelled from the spec: `AlwaysOnFrontendCounters` from
`swift/Basic/Statistic.h` (not under `src/`): one `size_t` field per
Frontend counter, zero-valued on construction ("a zero-valued baseline is
installed at construction"). -/
structure AlwaysOnFrontendCounters where
  NumProcessFailures : Nat := 0
  NumSourceLines : Nat := 0
  NumSourceLinesPerSecond : Nat := 0
  NumLoadedModules : Nat := 0
deriving DecidableEq, Repr

instance : Inhabited AlwaysOnFrontendCounters := ⟨{}⟩

/-- Read the field of `AlwaysOnFrontendCounters` named by a counter. -/
def getC (C : AlwaysOnFrontendCounters) : FrontendCounter → Nat
  | .NumProcessFailures => C.NumProcessFailures
  | .NumSourceLines => C.NumSourceLines
  | .NumSourceLinesPerSecond => C.NumSourceLinesPerSecond
  | .NumLoadedModules => C.NumLoadedModules

/-- Write the field of `AlwaysOnFrontendCounters` named by a counter. -/
def setC (C : AlwaysOnFrontendCounters) : FrontendCounter → Nat → AlwaysOnFrontendCounters
  | .NumProcessFailures, v => { C with NumProcessFailures := v }
  | .NumSourceLines, v => { C with NumSourceLines := v }
  | .NumSourceLinesPerSecond, v => { C with NumSourceLinesPerSecond := v }
  | .NumLoadedModules, v => { C with NumLoadedModules := v }

/-- Modelled from the spec: `AlwaysOnDriverCounters` from
`swift/Basic/Statistic.h` (not under `src/`): the Driver-domain counters
the source file refers to, zero-valued on construction. -/
structure AlwaysOnDriverCounters where
  NumProcessFailures : Nat := 0
  ChildrenMaxRSS : Nat := 0
  NumDriverJobsRun : Nat := 0
deriving DecidableEq, Repr

instance : Inhabited AlwaysOnDriverCounters := ⟨{}⟩

/-- The byte class `[A-Za-z0-9.]` preserved by `cleanName`. -/
def isCleanChar (c : Nat) : Bool :=
  (97 ≤ c && c ≤ 122) || (65 ≤ c && c ≤ 90) || (48 ≤ c && c ≤ 57) || c == 46

/-- `cleanName` from `Statistic.cpp`: maps each byte of the input to
itself when it lies in `[A-Za-z0-9.]`, and to `'_'` (byte 95) otherwise;
`tmp += c` for allowed bytes, `tmp += '_'` otherwise, over each byte of
the input in order.  Strings are modelled as lists of byte values (the
C `char`s of a `StringRef`). -/
def cleanName : List Nat → List Nat
  | [] => []
  | c :: cs => (if isCleanChar c then c else 95) :: cleanName cs

/-- The `TraceEntity` pointer-union from `Statistic.h`: a tagged, opaque,
non-owning reference to a Decl, Expr, clang Decl or SILFunction (or null).
Identifiers stand in for the pointers; the engine never dereferences them. -/
inductive TraceEntity where
  | none
  | decl (id : Nat)
  | expr (id : Nat)
  | clangDecl (id : Nat)
  | silFunction (id : Nat)
deriving DecidableEq, Repr

/-- `FrontendStatsEvent`: the record appended by
`saveAnyFrontendStatsEvents` (fields as constructed at its
`emplace_back` and consumed by the destructor's trace writer).
`CounterName` is the statically known counter the event is for. -/
structure FrontendStatsEvent where
  TimeUSec : Nat
  LiveUSec : Nat
  IsEntry : Bool
  EventName : String
  CounterName : FrontendCounter
  CounterDelta : Nat
  CounterValue : Nat
  Entity : TraceEntity
deriving DecidableEq, Repr

/-- The state of a `UnifiedStatsReporter`.  `SourceMgr` records whether the
reporter was constructed with a non-null `SourceManager*`.  The output
filenames are carried opaquely (their construction is out of scope). -/
structure UnifiedStatsReporter where
  currentProcessExitStatusSet : Bool
  currentProcessExitStatus : Int
  StatsFilename : String
  TraceFilename : String
  FrontendCounters : Option AlwaysOnFrontendCounters
  DriverCounters : Option AlwaysOnDriverCounters
  LastTracedFrontendCounters : Option AlwaysOnFrontendCounters
  FrontendStatsEvents : List FrontendStatsEvent
  SourceMgr : Bool
deriving DecidableEq, Repr

/-- The `UnifiedStatsReporter` constructor: exit status starts as
`EXIT_FAILURE` and unset; counter domains are unallocated; when
`TraceEvents` is requested, `LastTracedFrontendCounters` (the baseline)
is allocated zero-valued. -/
def mkUnifiedStatsReporter (StatsFilename TraceFilename : String)
    (SM : Bool) (TraceEvents : Bool) : UnifiedStatsReporter :=
  { currentProcessExitStatusSet := false
    currentProcessExitStatus := EXIT_FAILURE
    StatsFilename := StatsFilename
    TraceFilename := TraceFilename
    FrontendCounters := Option.none
    DriverCounters := Option.none
    LastTracedFrontendCounters := if TraceEvents then some {} else Option.none
    FrontendStatsEvents := []
    SourceMgr := SM }

/-- `getFrontendCounters`: get-or-create accessor for the Frontend domain.
Returns the domain's counters together with the reporter after the
(possible) allocation. -/
def UnifiedStatsReporter.getFrontendCounters (R : UnifiedStatsReporter) :
    AlwaysOnFrontendCounters × UnifiedStatsReporter :=
  match R.FrontendCounters with
  | some C => (C, R)
  | Option.none => ({}, { R with FrontendCounters := some {} })

/-- `getDriverCounters`: get-or-create accessor for the Driver domain. -/
def UnifiedStatsReporter.getDriverCounters (R : UnifiedStatsReporter) :
    AlwaysOnDriverCounters × UnifiedStatsReporter :=
  match R.DriverCounters with
  | some C => (C, R)
  | Option.none => ({}, { R with DriverCounters := some {} })

/-- `noteCurrentProcessExitStatus`: `assert(!currentProcessExitStatusSet)`
then record the status and mark it set.  The assertion failure (the
DoubleExitStatus programming error) is modelled as `Option.none`. -/
def UnifiedStatsReporter.noteCurrentProcessExitStatus
    (R : UnifiedStatsReporter) (status : Int) : Option UnifiedStatsReporter :=
  if R.currentProcessExitStatusSet then Option.none
  else some { R with currentProcessExitStatusSet := true
                     currentProcessExitStatus := status }

/-- A `FrontendStatsTracer` value: `hasReporter` models whether its
`Reporter` pointer is non-null.  `SavedTimeUS` is the saved process time
in microseconds (`uint64_t(1000000.0 * SavedTime.getProcessTime())`). -/
structure FrontendStatsTracer where
  hasReporter : Bool
  SavedTimeUS : Nat
  EventName : String
  Entity : TraceEntity
deriving DecidableEq, Repr

/-- The default `FrontendStatsTracer` constructor: `Reporter` is null (the
other fields are left uninitialized by the source; fixed junk values are
used here, and no theorem depends on them).  This is also the value
`getStatsTracer` returns when tracing is disabled; it never talks to a
reporter, at creation or later. -/
def FrontendStatsTracer.inert : FrontendStatsTracer :=
  { hasReporter := false, SavedTimeUS := 0, EventName := "", Entity := .none }

/-- The move constructor: the destination takes all four fields; the
moved-from tracer's `Reporter` is nulled.  Returns
`(destination, moved-from source)`. -/
def FrontendStatsTracer.moveConstruct (other : FrontendStatsTracer) :
    FrontendStatsTracer × FrontendStatsTracer :=
  (other, { other with hasReporter := false })

/-- The move-assignment operator: the destination's four fields are
overwritten with `other`'s, and `other.Reporter` is nulled.  Returns
`(destination after assignment, moved-from source)`. -/
def FrontendStatsTracer.moveAssign (_dst other : FrontendStatsTracer) :
    FrontendStatsTracer × FrontendStatsTracer :=
  (other, { other with hasReporter := false })

/-- One `FRONTEND_STATISTIC(TY, NAME)` expansion of the flush loop body:
`total = C.NAME; delta = C.NAME - Last.NAME;` and when `delta != 0`,
update the baseline field and append the event. -/
def flushOne (C : AlwaysOnFrontendCounters) (NowUS LiveUS : Nat) (IsEntry : Bool)
    (EventName : String) (Entity : TraceEntity)
    (acc : AlwaysOnFrontendCounters × List FrontendStatsEvent)
    (name : FrontendCounter) :
    AlwaysOnFrontendCounters × List FrontendStatsEvent :=
  let total := getC C name
  let delta := wrapSub total (getC acc.1 name)
  if delta ≠ 0 then
    (setC acc.1 name total,
      acc.2 ++ [{ TimeUSec := NowUS, LiveUSec := LiveUS, IsEntry := IsEntry,
                  EventName := EventName, CounterName := name,
                  CounterDelta := delta, CounterValue := total, Entity := Entity }])
  else
    acc

/-- The whole flush loop: the `Statistics.def` inclusion expands
`flushOne` once per statically known Frontend counter, in table order,
threading the baseline and the freshly appended events. -/
def flushAll (C Last : AlwaysOnFrontendCounters) (NowUS LiveUS : Nat) (IsEntry : Bool)
    (EventName : String) (Entity : TraceEntity) :
    AlwaysOnFrontendCounters × List FrontendStatsEvent :=
  frontendStatisticOrder.foldl (flushOne C NowUS LiveUS IsEntry EventName Entity) (Last, [])

/-- `saveAnyFrontendStatsEvents`: returns immediately when tracing is
disabled (`LastTracedFrontendCounters` null); otherwise computes
`LiveUS` (0 on entry, wrapped `uint64_t` difference of process times on
exit), reads the Frontend counters through the get-or-create accessor,
and runs the flush loop, storing the updated baseline and appending the
produced events to the event log.  `NowUS` stands for the value of
`uint64_t(1000000.0 * getCurrentTime().getProcessTime())`. -/
def UnifiedStatsReporter.saveAnyFrontendStatsEvents (R : UnifiedStatsReporter)
    (T : FrontendStatsTracer) (IsEntry : Bool) (NowUS : Nat) : UnifiedStatsReporter :=
  match R.LastTracedFrontendCounters with
  | Option.none => R
  | some Last =>
    let LiveUS := if IsEntry then 0 else wrapSub NowUS T.SavedTimeUS
    let CR := R.getFrontendCounters
    let res := flushAll CR.1 Last NowUS LiveUS IsEntry T.EventName T.Entity
    { CR.2 with
      LastTracedFrontendCounters := some res.1
      FrontendStatsEvents := CR.2.FrontendStatsEvents ++ res.2 }

/-- The batch of events a given flush appends (empty when tracing is
disabled). -/
def UnifiedStatsReporter.flushBatch (R : UnifiedStatsReporter)
    (T : FrontendStatsTracer) (IsEntry : Bool) (NowUS : Nat) : List FrontendStatsEvent :=
  match R.LastTracedFrontendCounters with
  | Option.none => []
  | some Last =>
    let LiveUS := if IsEntry then 0 else wrapSub NowUS T.SavedTimeUS
    (flushAll R.getFrontendCounters.1 Last NowUS LiveUS IsEntry T.EventName T.Entity).2

/-- The live `FrontendStatsTracer` constructor called with a non-null
reporter: captures `SavedTime` and immediately flushes with
`IsEntry = true`.  `SavedUS` is the captured time; `NowUS` the time read
inside the flush. -/
def UnifiedStatsReporter.beginTracer (R : UnifiedStatsReporter)
    (EventName : String) (Entity : TraceEntity) (SavedUS NowUS : Nat) :
    FrontendStatsTracer × UnifiedStatsReporter :=
  let T : FrontendStatsTracer :=
    { hasReporter := true, SavedTimeUS := SavedUS, EventName := EventName, Entity := Entity }
  (T, R.saveAnyFrontendStatsEvents T true NowUS)

/-- The `FrontendStatsTracer` destructor: flushes with `IsEntry = false`
when the tracer still holds a reporter, and does nothing otherwise. -/
def UnifiedStatsReporter.releaseTracer (R : UnifiedStatsReporter)
    (T : FrontendStatsTracer) (NowUS : Nat) : UnifiedStatsReporter :=
  if T.hasReporter then R.saveAnyFrontendStatsEvents T false NowUS else R

/-- `getStatsTracer`: returns a live tracer (running the entry flush)
when tracing is enabled, and an inert tracer otherwise. -/
def UnifiedStatsReporter.getStatsTracer (R : UnifiedStatsReporter)
    (EventName : String) (Entity : TraceEntity) (SavedUS NowUS : Nat) :
    FrontendStatsTracer × UnifiedStatsReporter :=
  if R.LastTracedFrontendCounters.isSome then
    R.beginTracer EventName Entity SavedUS NowUS
  else
    (FrontendStatsTracer.inert, R)

/-- A direct counter mutation by client code: reads the Frontend domain
through the get-or-create accessor and updates its fields. -/
def UnifiedStatsReporter.mutateFrontendCounters (R : UnifiedStatsReporter)
    (f : AlwaysOnFrontendCounters → AlwaysOnFrontendCounters) : UnifiedStatsReporter :=
  let CR := R.getFrontendCounters
  { CR.2 with FrontendCounters := some (f CR.1) }

/-- External inputs consumed by the teardown sequence: the children's
peak RSS probe, whether the elapsed process time is nonzero (a `double`
comparison in the source), the floating-point-derived lines-per-second
value, and whether each of the two output file opens fails. -/
structure TeardownEnv where
  childrenMaxRSS : Nat
  elapsedNonzero : Bool
  linesPerSecond : Nat
  statsOpenFails : Bool
  traceOpenFails : Bool
deriving DecidableEq, Repr

/-- The observable outcome of teardown: the reporter state after the
counter-updating phase, the messages written to `llvm::errs()`, the
serialized snapshot (the two counter domains as rendered; `Option.none`
when the stats file could not be opened), and the serialized trace rows
(`Option.none` when no trace file was written). -/
structure TeardownOutput where
  reporter : UnifiedStatsReporter
  diagnostics : List String
  statsWritten : Option (Option AlwaysOnFrontendCounters × Option AlwaysOnDriverCounters)
  traceWritten : Option (List FrontendStatsEvent)
deriving DecidableEq, Repr

/-- The counter-updating phase of `~UnifiedStatsReporter`, in source
order: (1) if the exit status is not `EXIT_SUCCESS`, increment
`NumProcessFailures` in the Frontend domain if allocated, else in the
Driver domain through the get-or-create accessor; (2) if the Driver
domain is allocated, store the children's max RSS; (3) if the Frontend
domain is allocated and `NumSourceLines` and the elapsed process time
are both nonzero, store the derived `NumSourceLinesPerSecond`. -/
def UnifiedStatsReporter.teardownCounters (R : UnifiedStatsReporter)
    (env : TeardownEnv) : UnifiedStatsReporter :=
  let R1 :=
    if R.currentProcessExitStatus ≠ EXIT_SUCCESS then
      match R.FrontendCounters with
      | some C =>
        { R with
          FrontendCounters := some { C with NumProcessFailures := (C.NumProcessFailures + 1) % W } }
      | Option.none =>
        let CR := R.getDriverCounters
        { CR.2 with
          DriverCounters := some { CR.1 with NumProcessFailures := (CR.1.NumProcessFailures + 1) % W } }
    else R
  let R2 :=
    match R1.DriverCounters with
    | some C =>
      { R1 with DriverCounters := some { C with ChildrenMaxRSS := env.childrenMaxRSS % W } }
    | Option.none => R1
  match R2.FrontendCounters with
  | some C =>
    if C.NumSourceLines ≠ 0 ∧ env.elapsedNonzero = true then
      { R2 with
        FrontendCounters := some { C with NumSourceLinesPerSecond := env.linesPerSecond % W } }
    else R2
  | Option.none => R2

/-- `~UnifiedStatsReporter` as a whole: after the counter-updating phase,
open the stats file; on failure report to `llvm::errs()` — the source
streams `TraceFilename` into this message — and `return` (so nothing else
runs); otherwise serialize the snapshot, and then, only when tracing was
enabled and the reporter holds a `SourceManager`, open the trace file (on
failure report and `return`) and serialize the event rows. -/
def UnifiedStatsReporter.destruct (R : UnifiedStatsReporter) (env : TeardownEnv) :
    TeardownOutput :=
  let R3 := R.teardownCounters env
  if env.statsOpenFails then
    { reporter := R3
      diagnostics :=
        ["Error opening -stats-output-dir file '" ++ R3.TraceFilename ++ "' for writing"]
      statsWritten := Option.none
      traceWritten := Option.none }
  else
    let snap := some (R3.FrontendCounters, R3.DriverCounters)
    if R3.LastTracedFrontendCounters.isSome && R3.SourceMgr then
      if env.traceOpenFails then
        { reporter := R3
          diagnostics :=
            ["Error opening -trace-stats-events file '" ++ R3.TraceFilename ++ "' for writing"]
          statsWritten := snap
          traceWritten := Option.none }
      else
        { reporter := R3
          diagnostics := []
          statsWritten := snap
          traceWritten := some R3.FrontendStatsEvents }
    else
      { reporter := R3, diagnostics := [], statsWritten := snap, traceWritten := Option.none }

/-- Sum of the `delta` fields of the events recorded for one counter. -/
def sumDeltasFor (l : List FrontendStatsEvent) (c : FrontendCounter) : Nat :=
  ((l.filter (fun e => e.CounterName == c)).map (fun e => e.CounterDelta)).sum

/-- A sample tracing-enabled reporter state with one mutated counter. -/
def sampleReporter : UnifiedStatsReporter :=
  { currentProcessExitStatusSet := false
    currentProcessExitStatus := 1
    StatsFilename := "stats-0-swiftc-M-all.json"
    TraceFilename := "trace-0-swiftc-M-all.csv"
    FrontendCounters := some { NumSourceLines := 5 }
    DriverCounters := Option.none
    LastTracedFrontendCounters := some {}
    FrontendStatsEvents := []
    SourceMgr := true }

/-- A sample live tracer. -/
def sampleTracer : FrontendStatsTracer :=
  { hasReporter := true, SavedTimeUS := 3, EventName := "typecheck", Entity := .decl 7 }

/-- A sample teardown environment with both file opens succeeding. -/
def sampleEnv : TeardownEnv :=
  { childrenMaxRSS := 0, elapsedNonzero := false, linesPerSecond := 0
    statsOpenFails := false, traceOpenFails := false }

/-- A fresh tracing-enabled reporter for the single-scope scenario. -/
def scopeR0 : UnifiedStatsReporter :=
  mkUnifiedStatsReporter "stats-9.json" "trace-9.csv" true true

/-- `scopeR0` after client code sets `NumLoadedModules` to 5 before the
scope opens. -/
def scopeR1 : UnifiedStatsReporter :=
  scopeR0.mutateFrontendCounters (fun C => { C with NumLoadedModules := 5 })

/-- The scope's tracer and the reporter after the entry flush. -/
def scopeBegin : FrontendStatsTracer × UnifiedStatsReporter :=
  scopeR1.beginTracer "parse" TraceEntity.none 10 11

/-- The reporter after client code raises `NumLoadedModules` to 9 inside
the scope. -/
def scopeR2 : UnifiedStatsReporter :=
  scopeBegin.2.mutateFrontendCounters (fun C => { C with NumLoadedModules := 9 })

/-- The reporter after the scope's exit flush. -/
def scopeR3 : UnifiedStatsReporter :=
  scopeR2.releaseTracer scopeBegin.1 20

/-- A sample recorded event. -/
def sampleEvent : FrontendStatsEvent :=
  { TimeUSec := 5, LiveUSec := 0, IsEntry := false, EventName := "parse"
    CounterName := .NumSourceLines, CounterDelta := 3, CounterValue := 3
    Entity := .none }

/-- A tracing-enabled reporter with a SourceManager, a nonempty event
log, and a successful noted exit status, used to exercise teardown. -/
def tracedReporter : UnifiedStatsReporter :=
  { currentProcessExitStatusSet := true
    currentProcessExitStatus := 0
    StatsFilename := "stats-7-swiftc-M-all.json"
    TraceFilename := "trace-7-swiftc-M-all.csv"
    FrontendCounters := some {}
    DriverCounters := Option.none
    LastTracedFrontendCounters := some {}
    FrontendStatsEvents := [sampleEvent]
    SourceMgr := true }

/-- The environment in which opening the stats output file fails. -/
def statsFailEnv : TeardownEnv :=
  { childrenMaxRSS := 0, elapsedNonzero := false, linesPerSecond := 0
    statsOpenFails := true, traceOpenFails := false }

/-- `tracedReporter` but constructed without a SourceManager. -/
def noSMReporter : UnifiedStatsReporter :=
  { tracedReporter with SourceMgr := false }

theorem W_pos : 0 < W := by norm_num [W]

theorem wrapSub_eq (a b : Nat) (hb : b < W) : wrapSub a b = (a + W - b) % W := by
  have : b % W = b := Nat.mod_eq_of_lt hb
  rw [wrapSub, this, Nat.add_sub_assoc (Nat.le_of_lt hb)]

theorem wrapSub_eq_zero_iff (a b : Nat) (ha : a < W) (hb : b < W) :
    wrapSub a b = 0 ↔ a = b := by
  rw [wrapSub_eq a b hb]
  constructor
  · intro h
    have hdvd : W ∣ (a + W - b) := Nat.dvd_of_mod_eq_zero h
    obtain ⟨k, hk⟩ := hdvd
    have hW : W = 18446744073709551616 := by norm_num [W]
    rw [hW] at hk ha hb
    omega
  · intro h
    subst h
    have : a + W - a = W := by omega
    rw [this, Nat.mod_self]

theorem wrapSub_of_le (a b : Nat) (ha : a < W) (hle : b ≤ a) :
    wrapSub a b = a - b := by
  have hb : b < W := lt_of_le_of_lt hle ha
  rw [wrapSub_eq a b hb]
  have h1 : a + W - b = (a - b) + W := by omega
  rw [h1, Nat.add_mod_right]
  exact Nat.mod_eq_of_lt (by omega)

@[simp] theorem getC_setC (C : AlwaysOnFrontendCounters) (n m : FrontendCounter) (v : Nat) :
    getC (setC C n v) m = if n = m then v else getC C m := by
  cases n <;> cases m <;> simp [getC, setC]

theorem cleanName_length (s : List Nat) : (cleanName s).length = s.length := by
  induction s with
  | nil => rfl
  | cons c cs ih => simp [cleanName, ih]

theorem cleanName_getD (s : List Nat) (i : Nat) :
    (cleanName s).getD i 0 = if isCleanChar (s.getD i 0) then s.getD i 0 else
      (if i < s.length then 95 else 0) := by
  induction s generalizing i with
  | nil => simp [cleanName, isCleanChar]
  | cons c cs ih =>
    cases i with
    | zero => by_cases h : isCleanChar c <;> simp [cleanName, h]
    | succ j => simpa [cleanName] using ih j

theorem cleanName_mem (s : List Nat) (c : Nat) (h : c ∈ cleanName s) :
    isCleanChar c = true ∨ c = 95 := by
  induction s with
  | nil => simp [cleanName] at h
  | cons d ds ih =>
    simp only [cleanName, List.mem_cons] at h
    rcases h with h | h
    · subst h
      by_cases hd : isCleanChar d
      · left; simp [hd]
      · right; simp [hd]
    · exact ih h

theorem cleanName_count (s : List Nat) :
    (cleanName s).count 95 = s.countP (fun c => !isCleanChar c) := by
  induction s with
  | nil => rfl
  | cons c cs ih =>
    by_cases h : isCleanChar c
    · have h95 : c ≠ 95 := by
        intro hc; subst hc; simp [isCleanChar] at h
      simp [cleanName, h, List.count_cons, List.countP_cons, ih, h95]
    · simp [cleanName, h, List.count_cons, List.countP_cons, ih]

@[simp] theorem getFrontendCounters_fst (R : UnifiedStatsReporter) :
    R.getFrontendCounters.1 = R.FrontendCounters.getD {} := by
  obtain ⟨a, b, c, d, FC, e, f, g, s⟩ := R
  cases FC <;> rfl

@[simp] theorem getFrontendCounters_snd (R : UnifiedStatsReporter) :
    R.getFrontendCounters.2 =
      { R with FrontendCounters := some (R.FrontendCounters.getD {}) } := by
  obtain ⟨a, b, c, d, FC, e, f, g, s⟩ := R
  cases FC <;> rfl

@[simp] theorem getDriverCounters_fst (R : UnifiedStatsReporter) :
    R.getDriverCounters.1 = R.DriverCounters.getD {} := by
  obtain ⟨a, b, c, d, e, DC, f, g, s⟩ := R
  cases DC <;> rfl

@[simp] theorem getDriverCounters_snd (R : UnifiedStatsReporter) :
    R.getDriverCounters.2 =
      { R with DriverCounters := some (R.DriverCounters.getD {}) } := by
  obtain ⟨a, b, c, d, e, DC, f, g, s⟩ := R
  cases DC <;> rfl

theorem flushOne_ne (C : AlwaysOnFrontendCounters) (NowUS LiveUS : Nat) (IsEntry : Bool)
    (EventName : String) (Entity : TraceEntity)
    (acc : AlwaysOnFrontendCounters × List FrontendStatsEvent)
    (m name : FrontendCounter) (h : m ≠ name) :
    getC (flushOne C NowUS LiveUS IsEntry EventName Entity acc m).1 name = getC acc.1 name ∧
    (flushOne C NowUS LiveUS IsEntry EventName Entity acc m).2.filter
        (fun e => e.CounterName == name) =
      acc.2.filter (fun e => e.CounterName == name) := by
  unfold flushOne
  dsimp only
  split
  · refine ⟨by simp [h], ?_⟩
    simp [List.filter_append, List.filter_cons, h]
  · exact ⟨rfl, rfl⟩

theorem flushOne_self (C : AlwaysOnFrontendCounters) (NowUS LiveUS : Nat) (IsEntry : Bool)
    (EventName : String) (Entity : TraceEntity)
    (acc : AlwaysOnFrontendCounters × List FrontendStatsEvent)
    (name : FrontendCounter) (hCn : getC C name < W) (hAn : getC acc.1 name < W) :
    getC (flushOne C NowUS LiveUS IsEntry EventName Entity acc name).1 name = getC C name ∧
    (flushOne C NowUS LiveUS IsEntry EventName Entity acc name).2.filter
        (fun e => e.CounterName == name) =
      acc.2.filter (fun e => e.CounterName == name) ++
        (if getC C name = getC acc.1 name then [] else
          [{ TimeUSec := NowUS, LiveUSec := LiveUS, IsEntry := IsEntry,
             EventName := EventName, CounterName := name,
             CounterDelta := wrapSub (getC C name) (getC acc.1 name),
             CounterValue := getC C name, Entity := Entity }]) := by
  unfold flushOne
  dsimp only
  by_cases h : getC C name = getC acc.1 name
  · have h0 : wrapSub (getC C name) (getC acc.1 name) = 0 :=
      (wrapSub_eq_zero_iff _ _ hCn hAn).mpr h
    simp only [h] at h0 ⊢
    simp [h0]
  · have h0 : wrapSub (getC C name) (getC acc.1 name) ≠ 0 := fun hc =>
      h ((wrapSub_eq_zero_iff _ _ hCn hAn).mp hc)
    simp [h0, h, List.filter_append, List.filter_cons]

theorem flushFold_not_mem (C : AlwaysOnFrontendCounters) (NowUS LiveUS : Nat) (IsEntry : Bool)
    (EventName : String) (Entity : TraceEntity) (name : FrontendCounter)
    (l : List FrontendCounter) :
    ∀ acc : AlwaysOnFrontendCounters × List FrontendStatsEvent, name ∉ l →
      getC (l.foldl (flushOne C NowUS LiveUS IsEntry EventName Entity) acc).1 name =
        getC acc.1 name ∧
      (l.foldl (flushOne C NowUS LiveUS IsEntry EventName Entity) acc).2.filter
          (fun e => e.CounterName == name) =
        acc.2.filter (fun e => e.CounterName == name) := by
  induction l with
  | nil => exact fun acc _ => ⟨rfl, rfl⟩
  | cons m ms ih =>
    intro acc h
    rw [List.mem_cons] at h
    push_neg at h
    have hm : m ≠ name := fun hc => h.1 hc.symm
    have step := flushOne_ne C NowUS LiveUS IsEntry EventName Entity acc m name hm
    have rest := ih (flushOne C NowUS LiveUS IsEntry EventName Entity acc m) h.2
    exact ⟨by rw [List.foldl_cons, rest.1, step.1], by rw [List.foldl_cons, rest.2, step.2]⟩

theorem flushFold_mem (C : AlwaysOnFrontendCounters) (NowUS LiveUS : Nat) (IsEntry : Bool)
    (EventName : String) (Entity : TraceEntity) (name : FrontendCounter)
    (hCn : getC C name < W) (l : List FrontendCounter) :
    ∀ acc : AlwaysOnFrontendCounters × List FrontendStatsEvent,
      l.Nodup → name ∈ l → getC acc.1 name < W →
      getC (l.foldl (flushOne C NowUS LiveUS IsEntry EventName Entity) acc).1 name =
        getC C name ∧
      (l.foldl (flushOne C NowUS LiveUS IsEntry EventName Entity) acc).2.filter
          (fun e => e.CounterName == name) =
        acc.2.filter (fun e => e.CounterName == name) ++
          (if getC C name = getC acc.1 name then [] else
            [{ TimeUSec := NowUS, LiveUSec := LiveUS, IsEntry := IsEntry,
               EventName := EventName, CounterName := name,
               CounterDelta := wrapSub (getC C name) (getC acc.1 name),
               CounterValue := getC C name, Entity := Entity }]) := by
  induction l with
  | nil => intro acc _ hmem; exact absurd hmem (List.not_mem_nil name)
  | cons m ms ih =>
    intro acc hnd hmem hAn
    rw [List.nodup_cons] at hnd
    by_cases hm : m = name
    · subst hm
      have step := flushOne_self C NowUS LiveUS IsEntry EventName Entity acc m hCn hAn
      have rest := flushFold_not_mem C NowUS LiveUS IsEntry EventName Entity m ms
        (flushOne C NowUS LiveUS IsEntry EventName Entity acc m) hnd.1
      refine ⟨by rw [List.foldl_cons, rest.1, step.1], ?_⟩
      rw [List.foldl_cons, rest.2, step.2]
    · have hmem' : name ∈ ms := by
        rcases List.mem_cons.mp hmem with h | h
        · exact absurd h.symm hm
        · exact h
      have step := flushOne_ne C NowUS LiveUS IsEntry EventName Entity acc m name hm
      have rest := ih (flushOne C NowUS LiveUS IsEntry EventName Entity acc m) hnd.2 hmem'
        (by rw [step.1]; exact hAn)
      refine ⟨rest.1 ▸ by rw [List.foldl_cons], ?_⟩
      rw [List.foldl_cons, rest.2, step.1, step.2]

/-- Pointwise description of the flush loop: the new baseline for each
counter equals the current value, and the events produced for a counter
are empty when current equals baseline, and exactly one event
(with the wrapped delta and the cumulative value) otherwise. -/
theorem flushAll_spec (C Last : AlwaysOnFrontendCounters) (NowUS LiveUS : Nat)
    (IsEntry : Bool) (EventName : String) (Entity : TraceEntity)
    (hC : ∀ n, getC C n < W) (hL : ∀ n, getC Last n < W) (name : FrontendCounter) :
    getC (flushAll C Last NowUS LiveUS IsEntry EventName Entity).1 name = getC C name ∧
    (flushAll C Last NowUS LiveUS IsEntry EventName Entity).2.filter
        (fun e => e.CounterName == name) =
      (if getC C name = getC Last name then [] else
        [{ TimeUSec := NowUS, LiveUSec := LiveUS, IsEntry := IsEntry,
           EventName := EventName, CounterName := name,
           CounterDelta := wrapSub (getC C name) (getC Last name),
           CounterValue := getC C name, Entity := Entity }]) := by
  have hmem : name ∈ frontendStatisticOrder := by
    cases name <;> simp [frontendStatisticOrder]
  have hnd : frontendStatisticOrder.Nodup := by decide
  have h := flushFold_mem C NowUS LiveUS IsEntry EventName Entity name (hC name)
    frontendStatisticOrder (Last, []) hnd hmem (hL name)
  exact ⟨h.1, by simpa using h.2⟩

theorem saveAny_events (R : UnifiedStatsReporter) (T : FrontendStatsTracer)
    (IsEntry : Bool) (NowUS : Nat) :
    (R.saveAnyFrontendStatsEvents T IsEntry NowUS).FrontendStatsEvents =
      R.FrontendStatsEvents ++ R.flushBatch T IsEntry NowUS := by
  cases h : R.LastTracedFrontendCounters <;>
    simp [UnifiedStatsReporter.saveAnyFrontendStatsEvents, UnifiedStatsReporter.flushBatch, h]

theorem saveAny_Last (R : UnifiedStatsReporter) (T : FrontendStatsTracer)
    (IsEntry : Bool) (NowUS : Nat) (Last : AlwaysOnFrontendCounters)
    (h : R.LastTracedFrontendCounters = some Last) :
    (R.saveAnyFrontendStatsEvents T IsEntry NowUS).LastTracedFrontendCounters =
      some (flushAll (R.FrontendCounters.getD {}) Last NowUS
        (if IsEntry then 0 else wrapSub NowUS T.SavedTimeUS) IsEntry T.EventName T.Entity).1 := by
  simp [UnifiedStatsReporter.saveAnyFrontendStatsEvents, h]

theorem saveAny_FrontendCounters (R : UnifiedStatsReporter) (T : FrontendStatsTracer)
    (IsEntry : Bool) (NowUS : Nat) (Last : AlwaysOnFrontendCounters)
    (h : R.LastTracedFrontendCounters = some Last) :
    (R.saveAnyFrontendStatsEvents T IsEntry NowUS).FrontendCounters =
      some (R.FrontendCounters.getD {}) := by
  simp [UnifiedStatsReporter.saveAnyFrontendStatsEvents, h]

theorem mutate_events (R : UnifiedStatsReporter)
    (f : AlwaysOnFrontendCounters → AlwaysOnFrontendCounters) :
    (R.mutateFrontendCounters f).FrontendStatsEvents = R.FrontendStatsEvents := by
  simp [UnifiedStatsReporter.mutateFrontendCounters]

theorem mutate_Last (R : UnifiedStatsReporter)
    (f : AlwaysOnFrontendCounters → AlwaysOnFrontendCounters) :
    (R.mutateFrontendCounters f).LastTracedFrontendCounters =
      R.LastTracedFrontendCounters := by
  simp [UnifiedStatsReporter.mutateFrontendCounters]

theorem mutate_FrontendCounters (R : UnifiedStatsReporter)
    (f : AlwaysOnFrontendCounters → AlwaysOnFrontendCounters) :
    (R.mutateFrontendCounters f).FrontendCounters =
      some (f (R.FrontendCounters.getD {})) := by
  simp [UnifiedStatsReporter.mutateFrontendCounters]

/-- C8: `cleanName` preserves the length of its input, maps every byte
to itself when it is in `[A-Za-z0-9.]` (in particular preserving such
bytes at their positions), produces only bytes in `[A-Za-z0-9.]` or
`'_'`, and produces exactly as many `'_'` bytes as the input has bytes
outside `[A-Za-z0-9.]`. -/
theorem cleanName_sanitizes (s : List Nat) :
    (cleanName s).length = s.length ∧
    (∀ i : Nat, isCleanChar (s.getD i 0) = true → (cleanName s).getD i 0 = s.getD i 0) ∧
    (∀ c ∈ cleanName s, isCleanChar c = true ∨ c = 95) ∧
    (cleanName s).count 95 = s.countP (fun c => !isCleanChar c) := by
  refine ⟨cleanName_length s, ?_, cleanName_mem s, cleanName_count s⟩
  intro i h
  rw [cleanName_getD, if_pos h]

theorem cleanName_sanitizes_witness :
    (cleanName [115, 47, 97]).length = 3 ∧ (cleanName [115, 47, 97]).getD 2 0 = 97 :=
  ⟨(cleanName_sanitizes [115, 47, 97]).1,
    (cleanName_sanitizes [115, 47, 97]).2.1 2 (by decide)⟩

theorem flushBatch_filter (R : UnifiedStatsReporter) (T : FrontendStatsTracer)
    (IsEntry : Bool) (NowUS : Nat) (Last : AlwaysOnFrontendCounters)
    (h : R.LastTracedFrontendCounters = some Last)
    (hC : ∀ n, getC (R.FrontendCounters.getD {}) n < W)
    (hL : ∀ n, getC Last n < W) (name : FrontendCounter) :
    (R.flushBatch T IsEntry NowUS).filter (fun e => e.CounterName == name) =
      (if getC (R.FrontendCounters.getD {}) name = getC Last name then [] else
        [{ TimeUSec := NowUS,
           LiveUSec := if IsEntry then 0 else wrapSub NowUS T.SavedTimeUS,
           IsEntry := IsEntry, EventName := T.EventName, CounterName := name,
           CounterDelta := wrapSub (getC (R.FrontendCounters.getD {}) name) (getC Last name),
           CounterValue := getC (R.FrontendCounters.getD {}) name,
           Entity := T.Entity }]) := by
  have hb : R.flushBatch T IsEntry NowUS =
      (flushAll (R.FrontendCounters.getD {}) Last NowUS
        (if IsEntry then 0 else wrapSub NowUS T.SavedTimeUS) IsEntry T.EventName T.Entity).2 := by
    simp [UnifiedStatsReporter.flushBatch, h]
  rw [hb]
  exact (flushAll_spec (R.FrontendCounters.getD {}) Last NowUS
    (if IsEntry then 0 else wrapSub NowUS T.SavedTimeUS) IsEntry T.EventName T.Entity
    hC hL name).2

/-- C2: a flush (entry or exit) performed by a non-inert tracer on a
tracing-enabled reporter appends its batch to the event log, and for
each statically known Frontend counter the batch holds exactly one event
iff the current value differs from the baseline; that event carries
delta = current − baseline, cumulativeValue = current, the flush's
IsEntry flag, and liveMicros = 0 on entry flushes; and the baseline of
every counter is then the current value (so zero-delta counters keep
their baseline and contribute nothing to the log). -/
theorem flush_delta_events (R : UnifiedStatsReporter) (T : FrontendStatsTracer)
    (IsEntry : Bool) (NowUS : Nat) (Last : AlwaysOnFrontendCounters)
    (hT : T.hasReporter = true)
    (hTrace : R.LastTracedFrontendCounters = some Last)
    (hC : ∀ n, getC (R.FrontendCounters.getD {}) n < W)
    (hL : ∀ n, getC Last n < W)
    (hmono : ∀ n, getC Last n ≤ getC (R.FrontendCounters.getD {}) n)
    (name : FrontendCounter) :
    (R.saveAnyFrontendStatsEvents T IsEntry NowUS).FrontendStatsEvents =
      R.FrontendStatsEvents ++ R.flushBatch T IsEntry NowUS ∧
    (R.flushBatch T IsEntry NowUS).filter (fun e => e.CounterName == name) =
      (if getC (R.FrontendCounters.getD {}) name = getC Last name then [] else
        [{ TimeUSec := NowUS,
           LiveUSec := if IsEntry then 0 else wrapSub NowUS T.SavedTimeUS,
           IsEntry := IsEntry, EventName := T.EventName, CounterName := name,
           CounterDelta := getC (R.FrontendCounters.getD {}) name - getC Last name,
           CounterValue := getC (R.FrontendCounters.getD {}) name,
           Entity := T.Entity }]) ∧
    ∃ Last', (R.saveAnyFrontendStatsEvents T IsEntry NowUS).LastTracedFrontendCounters =
      some Last' ∧ getC Last' name = getC (R.FrontendCounters.getD {}) name := by
  refine ⟨saveAny_events R T IsEntry NowUS, ?_, ?_⟩
  · rw [flushBatch_filter R T IsEntry NowUS Last hTrace hC hL name,
      wrapSub_of_le _ _ (hC name) (hmono name)]
  · refine ⟨_, saveAny_Last R T IsEntry NowUS Last hTrace, ?_⟩
    exact (flushAll_spec (R.FrontendCounters.getD {}) Last NowUS
      (if IsEntry then 0 else wrapSub NowUS T.SavedTimeUS) IsEntry T.EventName T.Entity
      hC hL name).1

theorem flush_delta_events_witness :
    (sampleReporter.saveAnyFrontendStatsEvents sampleTracer true 7).FrontendStatsEvents =
      sampleReporter.FrontendStatsEvents ++ sampleReporter.flushBatch sampleTracer true 7 ∧
    (sampleReporter.flushBatch sampleTracer true 7).filter
        (fun e => e.CounterName == FrontendCounter.NumSourceLines) =
      (if getC (sampleReporter.FrontendCounters.getD {}) FrontendCounter.NumSourceLines =
          getC ({} : AlwaysOnFrontendCounters) FrontendCounter.NumSourceLines then [] else
        [{ TimeUSec := 7,
           LiveUSec := if true then 0 else wrapSub 7 sampleTracer.SavedTimeUS,
           IsEntry := true, EventName := sampleTracer.EventName,
           CounterName := FrontendCounter.NumSourceLines,
           CounterDelta := getC (sampleReporter.FrontendCounters.getD {})
               FrontendCounter.NumSourceLines -
             getC ({} : AlwaysOnFrontendCounters) FrontendCounter.NumSourceLines,
           CounterValue := getC (sampleReporter.FrontendCounters.getD {})
             FrontendCounter.NumSourceLines,
           Entity := sampleTracer.Entity }]) ∧
    ∃ Last', (sampleReporter.saveAnyFrontendStatsEvents sampleTracer true 7).LastTracedFrontendCounters =
      some Last' ∧ getC Last' FrontendCounter.NumSourceLines =
        getC (sampleReporter.FrontendCounters.getD {}) FrontendCounter.NumSourceLines :=
  flush_delta_events sampleReporter sampleTracer true 7 {} rfl rfl
    (by decide) (by decide) (by decide) FrontendCounter.NumSourceLines

/-- C3 counterexample: in a run whose counter `NumLoadedModules` reaches
5 before the scope opens and 9 inside it, the events recorded from the
scope's entry flush through its exit flush (inclusive) have deltas 5 and
4, summing to 9, while current-at-exit − current-at-entry is 9 − 5 = 4.
So the claim's inclusive sum differs from the claimed value. -/
theorem scope_delta_sum_inclusive_counterexample :
    sumDeltasFor scopeR3.FrontendStatsEvents FrontendCounter.NumLoadedModules = 9 ∧
    getC (scopeR2.FrontendCounters.getD {}) FrontendCounter.NumLoadedModules = 9 ∧
    getC (scopeR1.FrontendCounters.getD {}) FrontendCounter.NumLoadedModules = 5 ∧
    scopeR1.FrontendStatsEvents = [] ∧
    sumDeltasFor scopeR3.FrontendStatsEvents FrontendCounter.NumLoadedModules ≠
      getC (scopeR2.FrontendCounters.getD {}) FrontendCounter.NumLoadedModules -
        getC (scopeR1.FrontendCounters.getD {}) FrontendCounter.NumLoadedModules := by
  decide

/-- C3 (amended): for a single tracer scope executed without interleaved
tracer use, the sum of the delta fields of the events recorded for a
counter after the scope's entry flush through its exit flush (i.e. the
events the exit flush appends) equals current-at-exit − current-at-entry
for that counter. -/
theorem scope_delta_conservation (R0 : UnifiedStatsReporter)
    (Last : AlwaysOnFrontendCounters) (EventName : String) (Entity : TraceEntity)
    (SavedUS Now1 Now2 : Nat)
    (f : AlwaysOnFrontendCounters → AlwaysOnFrontendCounters) (name : FrontendCounter)
    (hTrace : R0.LastTracedFrontendCounters = some Last)
    (hL : ∀ n, getC Last n < W)
    (hC0 : ∀ n, getC (R0.FrontendCounters.getD {}) n < W)
    (hfW : ∀ n, getC (f (R0.FrontendCounters.getD {})) n < W)
    (hmono : ∀ n, getC (R0.FrontendCounters.getD {}) n ≤
      getC (f (R0.FrontendCounters.getD {})) n) :
    sumDeltasFor
      ((((R0.beginTracer EventName Entity SavedUS Now1).2.mutateFrontendCounters
          f).releaseTracer (R0.beginTracer EventName Entity SavedUS Now1).1
            Now2).FrontendStatsEvents.drop
        (R0.beginTracer EventName Entity SavedUS Now1).2.FrontendStatsEvents.length) name =
      getC (f (R0.FrontendCounters.getD {})) name -
        getC (R0.FrontendCounters.getD {}) name := by
  have hT1 : (R0.beginTracer EventName Entity SavedUS Now1).1 =
      { hasReporter := true, SavedTimeUS := SavedUS,
        EventName := EventName, Entity := Entity } := rfl
  have hR1 : (R0.beginTracer EventName Entity SavedUS Now1).2 =
      R0.saveAnyFrontendStatsEvents
        { hasReporter := true, SavedTimeUS := SavedUS,
          EventName := EventName, Entity := Entity } true Now1 := rfl
  rw [hT1, hR1]
  set T : FrontendStatsTracer :=
    { hasReporter := true, SavedTimeUS := SavedUS, EventName := EventName, Entity := Entity }
  set C0 : AlwaysOnFrontendCounters := R0.FrontendCounters.getD {}
  set R1 : UnifiedStatsReporter := R0.saveAnyFrontendStatsEvents T true Now1
  set L1 : AlwaysOnFrontendCounters :=
    (flushAll C0 Last Now1 (if true then 0 else wrapSub Now1 T.SavedTimeUS) true
      T.EventName T.Entity).1
  have hR1Last : R1.LastTracedFrontendCounters = some L1 :=
    saveAny_Last R0 T true Now1 Last hTrace
  have hR1FC : R1.FrontendCounters = some C0 :=
    saveAny_FrontendCounters R0 T true Now1 Last hTrace
  have hL1 : ∀ n, getC L1 n = getC C0 n := fun n =>
    (flushAll_spec C0 Last Now1 _ true T.EventName T.Entity hC0 hL n).1
  set R2 : UnifiedStatsReporter := R1.mutateFrontendCounters f
  have hR2Last : R2.LastTracedFrontendCounters = some L1 := by
    rw [mutate_Last, hR1Last]
  have hR2FC : R2.FrontendCounters = some (f C0) := by
    rw [mutate_FrontendCounters, hR1FC]
    rfl
  have hR2ev : R2.FrontendStatsEvents = R1.FrontendStatsEvents := mutate_events R1 f
  have hRel : R2.releaseTracer T Now2 = R2.saveAnyFrontendStatsEvents T false Now2 := rfl
  rw [hRel]
  have hev : (R2.saveAnyFrontendStatsEvents T false Now2).FrontendStatsEvents =
      R2.FrontendStatsEvents ++ R2.flushBatch T false Now2 :=
    saveAny_events R2 T false Now2
  rw [hev, hR2ev, List.drop_left]
  have hfil := flushBatch_filter R2 T false Now2 L1 hR2Last
    (by rw [hR2FC]; exact fun n => hfW n)
    (by intro n; rw [hL1 n]; exact hC0 n) name
  rw [sumDeltasFor, hfil]
  rw [hR2FC]
  simp only [Option.getD_some]
  by_cases heq : getC (f C0) name = getC L1 name
  · rw [if_pos heq]
    have h2 : getC (f C0) name = getC C0 name := by rw [heq, hL1 name]
    simp [h2]
  · rw [if_neg heq]
    have hsub : wrapSub (getC (f C0) name) (getC L1 name) =
        getC (f C0) name - getC C0 name := by
      rw [hL1 name]
      exact wrapSub_of_le _ _ (hfW name) (hmono name)
    simp [hsub]

theorem scope_delta_conservation_witness :
    sumDeltasFor
      ((((scopeR1.beginTracer "parse" TraceEntity.none 10 11).2.mutateFrontendCounters
          (fun C => { C with NumLoadedModules := 9 })).releaseTracer
            (scopeR1.beginTracer "parse" TraceEntity.none 10 11).1
            20).FrontendStatsEvents.drop
        (scopeR1.beginTracer "parse" TraceEntity.none 10 11).2.FrontendStatsEvents.length)
      FrontendCounter.NumLoadedModules =
      getC ((fun C => { C with NumLoadedModules := 9 })
          (scopeR1.FrontendCounters.getD {})) FrontendCounter.NumLoadedModules -
        getC (scopeR1.FrontendCounters.getD {}) FrontendCounter.NumLoadedModules :=
  scope_delta_conservation scopeR1 {} "parse" TraceEntity.none 10 11 20
    (fun C => { C with NumLoadedModules := 9 }) FrontendCounter.NumLoadedModules
    (by decide) (by decide) (by decide) (by decide) (by decide)

/-- C6: the event log is append-only across flushes (each flush only
appends its batch), and for nested tracers A (outer) and B (inner) with
lifecycle A.begin, B.begin, B.end, A.end — with arbitrary counter
mutations in between — the final log is the original log followed by the
batches of A's entry flush, B's entry flush, B's exit flush and A's exit
flush, in exactly that temporal order. -/
theorem eventlog_nested_order :
    (∀ (R : UnifiedStatsReporter) (T : FrontendStatsTracer) (IsEntry : Bool) (NowUS : Nat),
      (R.saveAnyFrontendStatsEvents T IsEntry NowUS).FrontendStatsEvents =
        R.FrontendStatsEvents ++ R.flushBatch T IsEntry NowUS) ∧
    (∀ (R0 : UnifiedStatsReporter) (nameA nameB : String) (entA entB : TraceEntity)
        (sA nA sB nB nBx nAx : Nat)
        (m1 m2 m3 : AlwaysOnFrontendCounters → AlwaysOnFrontendCounters),
      let A := (R0.beginTracer nameA entA sA nA).1
      let R1 := (R0.beginTracer nameA entA sA nA).2
      let R2 := R1.mutateFrontendCounters m1
      let B := (R2.beginTracer nameB entB sB nB).1
      let R3 := (R2.beginTracer nameB entB sB nB).2
      let R4 := R3.mutateFrontendCounters m2
      let R5 := R4.releaseTracer B nBx
      let R6 := R5.mutateFrontendCounters m3
      let R7 := R6.releaseTracer A nAx
      R7.FrontendStatsEvents =
        R0.FrontendStatsEvents ++ R0.flushBatch A true nA ++ R2.flushBatch B true nB ++
          R4.flushBatch B false nBx ++ R6.flushBatch A false nAx) := by
  constructor
  · exact saveAny_events
  · intro R0 nameA nameB entA entB sA nA sB nB nBx nAx m1 m2 m3
    dsimp only [UnifiedStatsReporter.beginTracer, UnifiedStatsReporter.releaseTracer]
    simp [saveAny_events, mutate_events, List.append_assoc]

/-- C7: a default-constructed tracer has no reporter and its release does
nothing (so it appends no events regardless of counter mutations during
its lifetime, since only a reporter-holding release flushes); moving a
tracer (by move construction or move assignment) transfers the fields to
the destination, nulls the source's reporter, makes the moved-from
tracer's release a no-op, and the destination's release behaves exactly
as the original tracer's would have. -/
theorem tracer_inert_and_move :
    FrontendStatsTracer.inert.hasReporter = false ∧
    (∀ (R : UnifiedStatsReporter) (NowUS : Nat),
      R.releaseTracer FrontendStatsTracer.inert NowUS = R) ∧
    (∀ T : FrontendStatsTracer, (FrontendStatsTracer.moveConstruct T).1 = T ∧
      (FrontendStatsTracer.moveConstruct T).2.hasReporter = false) ∧
    (∀ (R : UnifiedStatsReporter) (T : FrontendStatsTracer) (NowUS : Nat),
      R.releaseTracer (FrontendStatsTracer.moveConstruct T).2 NowUS = R) ∧
    (∀ (R : UnifiedStatsReporter) (T : FrontendStatsTracer) (NowUS : Nat),
      R.releaseTracer (FrontendStatsTracer.moveConstruct T).1 NowUS =
        R.releaseTracer T NowUS) ∧
    (∀ D T : FrontendStatsTracer, (FrontendStatsTracer.moveAssign D T).1 = T ∧
      (FrontendStatsTracer.moveAssign D T).2.hasReporter = false) ∧
    (∀ (R : UnifiedStatsReporter) (D T : FrontendStatsTracer) (NowUS : Nat),
      R.releaseTracer (FrontendStatsTracer.moveAssign D T).2 NowUS = R) ∧
    (∀ (R : UnifiedStatsReporter) (D T : FrontendStatsTracer) (NowUS : Nat),
      R.releaseTracer (FrontendStatsTracer.moveAssign D T).1 NowUS =
        R.releaseTracer T NowUS) := by
  refine ⟨rfl, fun R n => rfl, fun T => ⟨rfl, rfl⟩, fun R T n => rfl, fun R T n => rfl,
    fun D T => ⟨rfl, rfl⟩, fun R D T n => rfl, fun R D T n => rfl⟩

theorem teardownCounters_frame (R : UnifiedStatsReporter) (env : TeardownEnv) :
    (R.teardownCounters env).SourceMgr = R.SourceMgr ∧
    (R.teardownCounters env).LastTracedFrontendCounters = R.LastTracedFrontendCounters ∧
    (R.teardownCounters env).FrontendStatsEvents = R.FrontendStatsEvents ∧
    (R.teardownCounters env).TraceFilename = R.TraceFilename ∧
    (R.teardownCounters env).StatsFilename = R.StatsFilename := by
  unfold UnifiedStatsReporter.teardownCounters
  by_cases hs : R.currentProcessExitStatus ≠ EXIT_SUCCESS <;>
    cases hF : R.FrontendCounters <;> cases hD : R.DriverCounters <;>
      simp [hs, hF, hD] <;> split_ifs <;> simp

theorem destruct_reporter (R : UnifiedStatsReporter) (env : TeardownEnv) :
    (R.destruct env).reporter = R.teardownCounters env := by
  unfold UnifiedStatsReporter.destruct
  dsimp only
  split_ifs <;> rfl

theorem destruct_statsWritten (R : UnifiedStatsReporter) (env : TeardownEnv)
    (h : env.statsOpenFails = false) :
    (R.destruct env).statsWritten =
      some ((R.teardownCounters env).FrontendCounters,
        (R.teardownCounters env).DriverCounters) := by
  have h2 : ¬ env.statsOpenFails = true := by simp [h]
  unfold UnifiedStatsReporter.destruct
  dsimp only
  rw [if_neg h2]
  split_ifs <;> rfl

/-- C5: `noteCurrentProcessExitStatus` on a reporter whose status is not
yet set records the given code and marks the status as set; calling it a
second time on the resulting reporter hits the
`assert(!currentProcessExitStatusSet)` (DoubleExitStatus) failure. -/
theorem noteExitStatus_write_once (R : UnifiedStatsReporter) (s1 s2 : Int)
    (h : R.currentProcessExitStatusSet = false) :
    R.noteCurrentProcessExitStatus s1 =
      some { R with currentProcessExitStatusSet := true,
                    currentProcessExitStatus := s1 } ∧
    ({ R with currentProcessExitStatusSet := true,
              currentProcessExitStatus := s1 } : UnifiedStatsReporter).noteCurrentProcessExitStatus
        s2 = Option.none := by
  constructor
  · simp [UnifiedStatsReporter.noteCurrentProcessExitStatus, h]
  · simp [UnifiedStatsReporter.noteCurrentProcessExitStatus]

theorem noteExitStatus_write_once_witness :
    (mkUnifiedStatsReporter "s.json" "t.csv" true true).noteCurrentProcessExitStatus 0 =
      some { mkUnifiedStatsReporter "s.json" "t.csv" true true with
             currentProcessExitStatusSet := true,
             currentProcessExitStatus := 0 } ∧
    ({ mkUnifiedStatsReporter "s.json" "t.csv" true true with
       currentProcessExitStatusSet := true,
       currentProcessExitStatus := 0 } : UnifiedStatsReporter).noteCurrentProcessExitStatus
        3 = Option.none :=
  noteExitStatus_write_once (mkUnifiedStatsReporter "s.json" "t.csv" true true) 0 3 rfl

/-- C4: a freshly constructed reporter has an unset `EXIT_FAILURE`
status, and noting a status records it; at teardown, when the (possibly
defaulted) status is not `EXIT_SUCCESS`, `NumProcessFailures` is
incremented exactly once — in the Frontend domain when it is populated
(leaving the Driver domain's count untouched), else in the Driver
domain; when the noted status is `EXIT_SUCCESS`, neither domain's
`NumProcessFailures` changes. -/
theorem teardown_increments_process_failures :
    (∀ (sf tf : String) (sm te : Bool),
      (mkUnifiedStatsReporter sf tf sm te).currentProcessExitStatusSet = false ∧
      (mkUnifiedStatsReporter sf tf sm te).currentProcessExitStatus = EXIT_FAILURE) ∧
    (∀ (R R' : UnifiedStatsReporter) (s : Int),
      R.noteCurrentProcessExitStatus s = some R' → R'.currentProcessExitStatus = s) ∧
    (∀ (R : UnifiedStatsReporter) (env : TeardownEnv),
      R.currentProcessExitStatus ≠ EXIT_SUCCESS →
      (∀ C, R.FrontendCounters = some C →
        ∃ C', (R.destruct env).reporter.FrontendCounters = some C' ∧
          C'.NumProcessFailures = (C.NumProcessFailures + 1) % W ∧
          (R.destruct env).reporter.DriverCounters.map
              AlwaysOnDriverCounters.NumProcessFailures =
            R.DriverCounters.map AlwaysOnDriverCounters.NumProcessFailures) ∧
      (R.FrontendCounters = Option.none →
        ∃ D', (R.destruct env).reporter.DriverCounters = some D' ∧
          D'.NumProcessFailures =
            ((R.DriverCounters.getD {}).NumProcessFailures + 1) % W)) ∧
    (∀ (R : UnifiedStatsReporter) (env : TeardownEnv),
      R.currentProcessExitStatus = EXIT_SUCCESS →
      (R.destruct env).reporter.FrontendCounters.map
          AlwaysOnFrontendCounters.NumProcessFailures =
        R.FrontendCounters.map AlwaysOnFrontendCounters.NumProcessFailures ∧
      (R.destruct env).reporter.DriverCounters.map
          AlwaysOnDriverCounters.NumProcessFailures =
        R.DriverCounters.map AlwaysOnDriverCounters.NumProcessFailures) := by
  refine ⟨fun sf tf sm te => ⟨rfl, rfl⟩, ?_, ?_, ?_⟩
  · intro R R' s h
    unfold UnifiedStatsReporter.noteCurrentProcessExitStatus at h
    split at h
    · exact absurd h (by simp)
    · cases h
      rfl
  · intro R env hs
    constructor
    · intro C hF
      rw [destruct_reporter]
      unfold UnifiedStatsReporter.teardownCounters
      rw [if_pos hs, hF]
      cases hD : R.DriverCounters <;> simp [hF, hD]
      all_goals split_ifs <;> simp
    · intro hF
      rw [destruct_reporter]
      unfold UnifiedStatsReporter.teardownCounters
      rw [if_pos hs, hF]
      cases hD : R.DriverCounters <;>
        simp [hF, hD, UnifiedStatsReporter.getDriverCounters]
  · intro R env hs
    have hs2 : ¬ R.currentProcessExitStatus ≠ EXIT_SUCCESS := by simp [hs]
    rw [destruct_reporter]
    unfold UnifiedStatsReporter.teardownCounters
    rw [if_neg hs2]
    cases hF : R.FrontendCounters <;> cases hD : R.DriverCounters <;>
      simp [hF, hD]
    all_goals split_ifs <;> simp_all

theorem teardown_increments_process_failures_witness :
    ∃ D', (((mkUnifiedStatsReporter "s2.json" "t2.csv" false false).destruct
        sampleEnv).reporter.DriverCounters = some D') ∧
      D'.NumProcessFailures =
        (((mkUnifiedStatsReporter "s2.json" "t2.csv" false
            false).DriverCounters.getD {}).NumProcessFailures + 1) % W :=
  ((teardown_increments_process_failures.2.2.1
    (mkUnifiedStatsReporter "s2.json" "t2.csv" false false) sampleEnv (by decide)).2 rfl)

/-- C1 (code bug): at teardown of a tracing-enabled reporter holding a
SourceManager and a nonempty event log, when opening the stats output
file fails, the code streams `TraceFilename` — not the stats path — into
the "-stats-output-dir" diagnostic, and then returns early, so trace
serialization is skipped as well (the claim and the spec say the
offending stats path is reported and that trace serialization still
completes). -/
theorem statsOpenFailure_reports_trace_path_and_skips_trace :
    (tracedReporter.destruct statsFailEnv).diagnostics =
      ["Error opening -stats-output-dir file 'trace-7-swiftc-M-all.csv' for writing"] ∧
    tracedReporter.StatsFilename = "stats-7-swiftc-M-all.json" ∧
    tracedReporter.TraceFilename = "trace-7-swiftc-M-all.csv" ∧
    tracedReporter.LastTracedFrontendCounters.isSome = true ∧
    tracedReporter.SourceMgr = true ∧
    tracedReporter.FrontendStatsEvents ≠ [] ∧
    (tracedReporter.destruct statsFailEnv).traceWritten = Option.none ∧
    (tracedReporter.destruct statsFailEnv).statsWritten = Option.none := by
  decide

/-- C9: teardown writes no trace file when the reporter holds no
SourceManager: whatever the rest of the state (tracing enabled, nonempty
event log), `traceWritten` is empty and the outcome does not depend on
whether a trace-file open would fail — the trace file is never opened. -/
theorem no_trace_without_sourceMgr (R : UnifiedStatsReporter) (env : TeardownEnv)
    (h : R.SourceMgr = false) :
    (R.destruct env).traceWritten = Option.none ∧
    (∀ b, R.destruct { env with traceOpenFails := b } = R.destruct env) := by
  obtain ⟨rss, eln, lps, sof, tof⟩ := env
  have hsm : (R.teardownCounters ⟨rss, eln, lps, sof, tof⟩).SourceMgr = false := by
    rw [(teardownCounters_frame R _).1, h]
  constructor
  · unfold UnifiedStatsReporter.destruct
    dsimp only
    rw [hsm]
    simp only [Bool.and_false]
    simp
    split_ifs <;> rfl
  · intro b
    have ht : R.teardownCounters ⟨rss, eln, lps, sof, b⟩ =
        R.teardownCounters ⟨rss, eln, lps, sof, tof⟩ := rfl
    unfold UnifiedStatsReporter.destruct
    dsimp only
    rw [ht, hsm]
    simp only [Bool.and_false]
    simp

theorem no_trace_without_sourceMgr_witness :
    (noSMReporter.destruct sampleEnv).traceWritten = Option.none ∧
    noSMReporter.destruct { sampleEnv with traceOpenFails := true } =
      noSMReporter.destruct sampleEnv :=
  ⟨(no_trace_without_sourceMgr noSMReporter sampleEnv rfl).1,
    (no_trace_without_sourceMgr noSMReporter sampleEnv rfl).2 true⟩

/-- C10: when neither counter domain was ever allocated and the exit
status is a failure, the teardown failure path allocates the Driver
domain through the get-or-create accessor and sets its
`NumProcessFailures` to 1, and the snapshot then reports exactly this
Driver domain (with no Frontend domain). -/
theorem teardown_failure_allocates_driver (R : UnifiedStatsReporter) (env : TeardownEnv)
    (hF : R.FrontendCounters = Option.none) (hD : R.DriverCounters = Option.none)
    (hs : R.currentProcessExitStatus ≠ EXIT_SUCCESS) (ho : env.statsOpenFails = false) :
    ∃ D : AlwaysOnDriverCounters,
      (R.destruct env).reporter.DriverCounters = some D ∧
      D.NumProcessFailures = 1 ∧
      (R.destruct env).reporter.FrontendCounters = Option.none ∧
      (R.destruct env).statsWritten = some (Option.none, some D) := by
  rw [destruct_reporter, destruct_statsWritten R env ho]
  have h1 : 1 % W = 1 := Nat.mod_eq_of_lt (by norm_num [W])
  unfold UnifiedStatsReporter.teardownCounters
  simp only [if_pos hs, hF, UnifiedStatsReporter.getDriverCounters, hD]
  refine ⟨⟨1, env.childrenMaxRSS % W, 0⟩, ?_⟩
  simp [h1]

theorem teardown_failure_allocates_driver_witness :
    ∃ D : AlwaysOnDriverCounters,
      ((mkUnifiedStatsReporter "s3.json" "t3.csv" false false).destruct
          sampleEnv).reporter.DriverCounters = some D ∧
      D.NumProcessFailures = 1 ∧
      ((mkUnifiedStatsReporter "s3.json" "t3.csv" false false).destruct
          sampleEnv).reporter.FrontendCounters = Option.none ∧
      ((mkUnifiedStatsReporter "s3.json" "t3.csv" false false).destruct
          sampleEnv).statsWritten = some (Option.none, some D) :=
  teardown_failure_allocates_driver (mkUnifiedStatsReporter "s3.json" "t3.csv" false false)
    sampleEnv rfl rfl (by decide) rfl

end SwiftStats
